import Mathlib

/-!
Verification development for the low-temperature-shift (LTS) reactor model
in mainLTSMk3.py.  The script computes kinetic constants from literal
inputs, defines the ODE right-hand side LTS, integrates it over a catalyst
mass grid, and plots the trajectories.  Python floats are embedded as real
numbers; fractional powers become Real.rpow; division follows the source
expressions literally (with a separate definedness-tracking semantics where
well-definedness itself is at issue).
-/

namespace Mk3

noncomputable section

/-! Inlet flow rates (mainLTSMk3.py lines 15-21). -/

/-- Inlet molar flow of CO, mol/s. -/
def f0CO : ℝ := 291.4

/-- Inlet molar flow of H2O, mol/s. -/
def f0H2O : ℝ := 5441.7

/-- Inlet molar flow of CO2, mol/s. -/
def f0CO2 : ℝ := 1604.2

/-- Inlet molar flow of H2, mol/s. -/
def f0H2 : ℝ := 5015.6

/-- The inlet state vector, ordered (CO, H2O, CO2, H2). -/
def InletFlow : ℝ × ℝ × ℝ × ℝ := (f0CO, f0H2O, f0CO2, f0H2)

/-- Sum of the four inlet flows (`fTotal = sum(InletFlow)`). -/
def fTotal : ℝ := f0CO + f0H2O + f0CO2 + f0H2

/-! Parameters, universal constants, and reactor config (lines 24-42). -/

/-- Operating temperature, Kelvin. -/
def T : ℝ := 497.15

/-- Operating pressure, pascals. -/
def P : ℝ := 2050000

/-- Gas constant, J/(K*mol). -/
def R : ℝ := 8.314

/-- Max catalyst mass, kg (also the linspace point count). -/
def wMax : ℕ := 3000

/-- Min catalyst mass, kg. -/
def wMin : ℕ := 0

/-- Rate-law exponent on c_CO. -/
def a : ℝ := 0.47

/-- Rate-law exponent on c_H2O. -/
def b : ℝ := 0.72

/-- Rate-law exponent assigned to c_H2 in the rate expression. -/
def c : ℝ := -0.65

/-- Rate-law exponent assigned to c_CO2 in the rate expression. -/
def d : ℝ := -0.38

/-- Log of the pre-exponential factor (source name `lonA`). -/
def lonA : ℝ := 19.25

/-- Pre-exponential factor `A = exp(lonA)`. -/
def A : ℝ := Real.exp lonA

/-- Unit-converted pre-exponential factor:
`newA = A*1000/3600*101325**(-0.16)*P**0.16`. -/
def newA : ℝ := A * 1000 / 3600 * (101325 : ℝ) ^ (-0.16 : ℝ) * P ^ (0.16 : ℝ)

/-- Activation energy, J/mol. -/
def Ea : ℝ := 79.2e3

/-- Arrhenius rate constant `k = newA*exp(-Ea/(R*T))`. -/
def k : ℝ := newA * Real.exp (-Ea / (R * T))

/-- Equilibrium constant `Ke = exp(4577.8/T-4.33)`. -/
def Ke : ℝ := Real.exp (4577.8 / T - 4.33)

/-! The kinetics function LTS (lines 45-72).  The source destructures
`z = [FCO2O, FH2O, FCO2, FH2]` (the first name binds the CO flow) and
computes intermediates in sequence; each intermediate is embedded as a
function of the state vector. -/

/-- Total concentration `cTotal = P/(R*T)` (line 48). -/
def cTotal : ℝ := P / (R * T)

/-- Total molar flow `Ft` of a state vector (line 52). -/
def Ft (z : ℝ × ℝ × ℝ × ℝ) : ℝ := z.1 + z.2.1 + z.2.2.1 + z.2.2.2

/-- Concentration of CO, `c_CO = cTotal*FCO2O/Ft` (line 53). -/
def c_CO (z : ℝ × ℝ × ℝ × ℝ) : ℝ := cTotal * z.1 / Ft z

/-- Concentration of H2O, `c_H2O = cTotal*FH2O/Ft` (line 54). -/
def c_H2O (z : ℝ × ℝ × ℝ × ℝ) : ℝ := cTotal * z.2.1 / Ft z

/-- Concentration of CO2, `c_CO2 = cTotal*FCO2/Ft` (line 55). -/
def c_CO2 (z : ℝ × ℝ × ℝ × ℝ) : ℝ := cTotal * z.2.2.1 / Ft z

/-- Concentration of H2, `c_H2 = cTotal*FH2/Ft` (line 56). -/
def c_H2 (z : ℝ × ℝ × ℝ × ℝ) : ℝ := cTotal * z.2.2.2 / Ft z

/-- Approach-to-equilibrium ratio
`beta = c_H2*c_CO2/(c_CO*c_H2O)/Ke` (line 59). -/
def beta (z : ℝ × ℝ × ℝ × ℝ) : ℝ := c_H2 z * c_CO2 z / (c_CO z * c_H2O z) / Ke

/-- Net forward rate
`rate = k*(c_CO**a)*(c_H2O**b)*(c_CO2**d)*(c_H2**c)*(1-beta)` (line 60). -/
def rate (z : ℝ × ℝ × ℝ × ℝ) : ℝ :=
  k * c_CO z ^ a * c_H2O z ^ b * c_CO2 z ^ d * c_H2 z ^ c * (1 - beta z)

/-- The ODE right-hand side `LTS(z, W)` (lines 45-72): returns
`(dCOdW, dH2OdW, dCO2dW, dH2dW) = (-rate, -rate, rate, rate)`.
The catalyst mass `W` is accepted but unused, as in the source. -/
def LTS (z : ℝ × ℝ × ℝ × ℝ) (W : ℝ) : ℝ × ℝ × ℝ × ℝ :=
  (-rate z, -rate z, rate z, rate z)

/-- The kinetic rate written out from the specification text, with the
exponents as explicit numerals: `cTotal = P/(R*T)`, `Ft = sum of flows`,
`c_i = cTotal * F_i / Ft`, `beta = (c_H2*c_CO2)/(c_CO*c_H2O)/Ke`,
`rate = k * c_CO^0.47 * c_H2O^0.72 * c_CO2^(-0.38) * c_H2^(-0.65) * (1-beta)`
(CO2 carries exponent d = -0.38 and H2 carries exponent c = -0.65).
Used to compare the source kinetics against the spec wording. -/
def specRate (FCO FH2Ov FCO2v FH2v : ℝ) : ℝ :=
  let cT := P / (R * T)
  let FtS := FCO + FH2Ov + FCO2v + FH2v
  let cCO := cT * FCO / FtS
  let cH2O := cT * FH2Ov / FtS
  let cCO2 := cT * FCO2v / FtS
  let cH2 := cT * FH2v / FtS
  let betaS := cH2 * cCO2 / (cCO * cH2O) / Ke
  k * cCO ^ (0.47 : ℝ) * cH2O ^ (0.72 : ℝ) * cCO2 ^ (-0.38 : ℝ) *
    cH2 ^ (-0.65 : ℝ) * (1 - betaS)

/-! Definedness-tracking semantics of the same kinetics (lines 45-72).
Python floats produce NaN/inf (or complex values) exactly where the real
expression is mathematically ill-defined: division by a zero denominator,
and a fractional power of a negative base or a negative power of zero.
`fdiv` and `fpow` wrap the corresponding real operations with those
definedness checks; `LTSdef` is the source body re-read with them, with no
further guards, mirroring the absence of guards in the source. -/

/-- Division, undefined on a zero denominator. -/
def fdiv (x y : ℝ) : Option ℝ := if y = 0 then none else some (x / y)

/-- Real power, undefined on a negative base with fractional exponent and
on a negative power of zero (the cases where float `**` yields
NaN/complex/inf). -/
def fpow (x y : ℝ) : Option ℝ :=
  if x < 0 ∨ (x = 0 ∧ y < 0) then none else some (x ^ y)

/-- The kinetics body (lines 45-72) with definedness tracking: `none`
exactly when some intermediate operation is ill-defined.  There is no
branch testing the state beyond the per-operation checks, matching the
guard-free source. -/
def LTSdef (z : ℝ × ℝ × ℝ × ℝ) (W : ℝ) : Option (ℝ × ℝ × ℝ × ℝ) := do
  let FtS := z.1 + z.2.1 + z.2.2.1 + z.2.2.2
  let cCO ← fdiv (cTotal * z.1) FtS
  let cH2O ← fdiv (cTotal * z.2.1) FtS
  let cCO2 ← fdiv (cTotal * z.2.2.1) FtS
  let cH2 ← fdiv (cTotal * z.2.2.2) FtS
  let q ← fdiv (cH2 * cCO2) (cCO * cH2O)
  let betaS ← fdiv q Ke
  let pCO ← fpow cCO a
  let pH2O ← fpow cH2O b
  let pCO2 ← fpow cCO2 d
  let pH2 ← fpow cH2 c
  let rateS := k * pCO * pH2O * pCO2 * pH2 * (1 - betaS)
  return (-rateS, -rateS, rateS, rateS)

/-! The integration grid (line 75): `wSpan = np.linspace(wMin, wMax, num=wMax)`. -/

/-- numpy.linspace with endpoint=True: `num` points
`start + (stop-start)*i/(num-1)` for `i = 0, ..., num-1`. -/
def linspace (start stop : ℝ) (num : ℕ) : List ℝ :=
  (List.range num).map
    (fun i : ℕ => start + (stop - start) * (i : ℝ) / ((num : ℝ) - 1))

/-- The catalyst-mass sample grid (line 75). -/
def wSpan : List ℝ := linspace (wMin : ℝ) (wMax : ℝ) wMax

/-! The integration driver (line 76): `solver = odeint(LTS, InletFlow, wSpan)`.
scipy.integrate.odeint is library code, not part of this repository. -/

/-- Modelled from the spec: scipy.integrate.odeint, the generic
initial-value-problem solver of section 4.3, which "produce[s] one state
vector per requested sample point" starting from the initial state, here
represented by an explicit stepper advancing between consecutive sample
points.  Only grid-shape facts (one output per sample point, the first
output being the initial state) are relied on, not the numeric values of
later rows. -/
def odeintGo (f : (ℝ × ℝ × ℝ × ℝ) → ℝ → ℝ × ℝ × ℝ × ℝ) :
    (ℝ × ℝ × ℝ × ℝ) → ℝ → List ℝ → List (ℝ × ℝ × ℝ × ℝ)
  | _, _, [] => []
  | y, t, t2 :: rest =>
    let y2 := y + (t2 - t) • f y t
    y2 :: odeintGo f y2 t2 rest

/-- Modelled from the spec: the odeint entry point; the first output row
is the initial state, one row per sample point. -/
def odeint (f : (ℝ × ℝ × ℝ × ℝ) → ℝ → ℝ × ℝ × ℝ × ℝ)
    (y0 : ℝ × ℝ × ℝ × ℝ) (ts : List ℝ) : List (ℝ × ℝ × ℝ × ℝ) :=
  match ts with
  | [] => []
  | t0 :: rest => y0 :: odeintGo f y0 t0 rest

/-- The output trajectory (line 76). -/
def solver : List (ℝ × ℝ × ℝ × ℝ) := odeint LTS InletFlow wSpan

/-! The plotting section (lines 79-86), embedded as the trace of
matplotlib commands the script issues, in order. -/

/-- A matplotlib command relevant to the script: a labeled line series, an
axis label, a title, a legend, or a display/save action. -/
inductive PlotCmd where
  | plot (label : String) (xs : List ℝ) (ys : List ℝ)
  | xlabel (s : String)
  | ylabel (s : String)
  | title (s : String)
  | legend (loc : String)
  | showFig
  | saveFig (path : String)

/-- Whether a command displays or saves the figure. -/
def isDisplayCmd : PlotCmd → Bool
  | PlotCmd.showFig => true
  | PlotCmd.saveFig _ => true
  | _ => false

/-- The series label of a plot command, if any. -/
def labelOfPlot : PlotCmd → Option String
  | PlotCmd.plot lab _ _ => some lab
  | _ => none

/-- The matplotlib commands issued by lines 79-86, in order.  The script
ends after `plt.legend(loc='best')`; no show or savefig call follows. -/
def plotCommands : List PlotCmd :=
  [PlotCmd.plot "F_CO" wSpan (solver.map (fun s => s.1)),
   PlotCmd.plot "F_H2O" wSpan (solver.map (fun s => s.2.1)),
   PlotCmd.plot "F_CO2" wSpan (solver.map (fun s => s.2.2.1)),
   PlotCmd.plot "F_H2" wSpan (solver.map (fun s => s.2.2.2)),
   PlotCmd.xlabel "Catalyst mass, kg",
   PlotCmd.ylabel "Molar Flowrates (mol/s)",
   PlotCmd.title "LTS Molar Flow as Function of Cat. Mass",
   PlotCmd.legend "best"]

/-! Theorems. -/

/-- Claim C1: for every state vector with positive total flow, the
kinetics function LTS computes its result by exactly the spec's steps:
`cTotal = P/(R*T)`, `Ft = F_CO+F_H2O+F_CO2+F_H2`, `c_i = cTotal*F_i/Ft`,
`beta = (c_H2*c_CO2)/(c_CO*c_H2O)/Ke`, and
`rate = k*c_CO^a*c_H2O^b*c_CO2^d*c_H2^c*(1-beta)` with CO2 raised to
d = -0.38 and H2 to c = -0.65 (the cross-assignment preserved, not
swapped); the returned derivatives are (-rate, -rate, rate, rate). -/
theorem C1_kinetics_matches_spec (z : ℝ × ℝ × ℝ × ℝ) (W : ℝ)
    (h : 0 < Ft z) :
    LTS z W = (-specRate z.1 z.2.1 z.2.2.1 z.2.2.2,
               -specRate z.1 z.2.1 z.2.2.1 z.2.2.2,
               specRate z.1 z.2.1 z.2.2.1 z.2.2.2,
               specRate z.1 z.2.1 z.2.2.1 z.2.2.2) := by
  simp only [LTS, rate, beta, c_CO, c_H2O, c_CO2, c_H2, Ft, specRate,
    a, b, c, d, cTotal]

/-- Claim C1 witness at the state (1,1,1,1). -/
theorem C1_kinetics_matches_spec_witness :
    0 < Ft (1, 1, 1, 1) ∧
    LTS (1, 1, 1, 1) 0 = (-specRate 1 1 1 1, -specRate 1 1 1 1,
                          specRate 1 1 1 1, specRate 1 1 1 1) :=
  ⟨by norm_num [Ft],
   C1_kinetics_matches_spec (1, 1, 1, 1) 0 (by norm_num [Ft])⟩

/-- Claim C2: for every state vector with positive total flow, the four
derivatives returned by LTS satisfy d(CO)/dW = d(H2O)/dW = -rate and
d(CO2)/dW = d(H2)/dW = +rate, hence d(CO)/dW = d(H2O)/dW,
d(CO2)/dW = d(H2)/dW = -d(CO)/dW, and the four derivatives sum to zero
(1:1:1:1 stoichiometry). -/
theorem C2_stoichiometric_coupling (z : ℝ × ℝ × ℝ × ℝ) (W : ℝ)
    (h : 0 < Ft z) :
    (LTS z W).1 = -rate z ∧ (LTS z W).2.1 = -rate z ∧
    (LTS z W).2.2.1 = rate z ∧ (LTS z W).2.2.2 = rate z ∧
    (LTS z W).1 = (LTS z W).2.1 ∧
    (LTS z W).2.2.1 = (LTS z W).2.2.2 ∧
    (LTS z W).2.2.1 = -(LTS z W).1 ∧
    (LTS z W).1 + (LTS z W).2.1 + (LTS z W).2.2.1 + (LTS z W).2.2.2 = 0 := by
  refine ⟨rfl, rfl, rfl, rfl, rfl, rfl, ?_, ?_⟩
  · simp [LTS]
  · simp [LTS]

/-- Claim C2 witness at the state (1,1,1,1). -/
theorem C2_stoichiometric_coupling_witness :
    0 < Ft (1, 1, 1, 1) ∧
    (LTS (1, 1, 1, 1) 0).1 + (LTS (1, 1, 1, 1) 0).2.1 +
      (LTS (1, 1, 1, 1) 0).2.2.1 + (LTS (1, 1, 1, 1) 0).2.2.2 = 0 :=
  ⟨by norm_num [Ft],
   (C2_stoichiometric_coupling (1, 1, 1, 1) 0
      (by norm_num [Ft])).2.2.2.2.2.2.2⟩

/-- Claim C4: the derived kinetic constants are computed from the literal
inputs exactly as A = exp(19.25),
newA = A*1000/3600*101325^(-0.16)*P^0.16, k = newA*exp(-Ea/(R*T)) with
Ea = 79.2e3, R = 8.314, T = 497.15, and Ke = exp(4577.8/T - 4.33); they
are plain constants, fixed before integration. -/
theorem C4_derived_constants :
    A = Real.exp 19.25 ∧ lonA = 19.25 ∧
    newA = A * 1000 / 3600 * (101325 : ℝ) ^ (-0.16 : ℝ) * P ^ (0.16 : ℝ) ∧
    Ea = 79.2e3 ∧ R = 8.314 ∧ T = 497.15 ∧ P = 2050000 ∧
    k = newA * Real.exp (-Ea / (R * T)) ∧
    Ke = Real.exp (4577.8 / T - 4.33) :=
  ⟨rfl, rfl, rfl, rfl, rfl, rfl, rfl, rfl, rfl⟩

/-- Claim C5 counterexample: the sum of the four inlet flow literals, the
value bound to fTotal, is not 12353.9. -/
theorem C5_counterexample : fTotal ≠ 12353.9 := by
  norm_num [fTotal, f0CO, f0H2O, f0CO2, f0H2]

/-- Claim C5 (amended): the total inlet molar flow
fTotal = 291.4 + 5441.7 + 1604.2 + 5015.6 equals 12352.9 mol/s. -/
theorem C5_total_inlet_flow : fTotal = 12352.9 := by
  norm_num [fTotal, f0CO, f0H2O, f0CO2, f0H2]

/-- Claim C3: for every state vector with positive components such that
c_H2 * c_CO2 = c_CO * c_H2O * Ke exactly (beta = 1), the kinetics
function yields rate = 0 and returns (0, 0, 0, 0). -/
theorem C3_equilibrium_zero_rate (z : ℝ × ℝ × ℝ × ℝ) (W : ℝ)
    (h1 : 0 < z.1) (h2 : 0 < z.2.1) (h3 : 0 < z.2.2.1) (h4 : 0 < z.2.2.2)
    (hEq : c_H2 z * c_CO2 z = c_CO z * c_H2O z * Ke) :
    rate z = 0 ∧ LTS z W = (0, 0, 0, 0) := by
  have hFt : 0 < Ft z := by unfold Ft; linarith
  have hcT : (0 : ℝ) < cTotal := by norm_num [cTotal, P, R, T]
  have hCO : 0 < c_CO z := div_pos (mul_pos hcT h1) hFt
  have hH2O : 0 < c_H2O z := div_pos (mul_pos hcT h2) hFt
  have hCOne : c_CO z ≠ 0 := ne_of_gt hCO
  have hH2One : c_H2O z ≠ 0 := ne_of_gt hH2O
  have hKene : Ke ≠ 0 := ne_of_gt (Real.exp_pos _)
  have hbeta : beta z = 1 := by
    unfold beta
    rw [hEq]
    field_simp
  have hr : rate z = 0 := by
    unfold rate
    rw [hbeta]
    ring
  exact ⟨hr, by simp [LTS, hr]⟩

/-- Claim C3 witness at the state (1, 1, 1, Ke), which satisfies the
equilibrium relation exactly. -/
theorem C3_equilibrium_zero_rate_witness :
    0 < (1 : ℝ) ∧ 0 < Ke ∧
    c_H2 (1, 1, 1, Ke) * c_CO2 (1, 1, 1, Ke)
      = c_CO (1, 1, 1, Ke) * c_H2O (1, 1, 1, Ke) * Ke ∧
    LTS (1, 1, 1, Ke) 0 = (0, 0, 0, 0) := by
  have hKe : 0 < Ke := Real.exp_pos _
  have hEq : c_H2 (1, 1, 1, Ke) * c_CO2 (1, 1, 1, Ke)
      = c_CO (1, 1, 1, Ke) * c_H2O (1, 1, 1, Ke) * Ke := by
    simp only [c_H2, c_CO2, c_CO, c_H2O, Ft]
    ring
  exact ⟨one_pos, hKe, hEq,
    (C3_equilibrium_zero_rate (1, 1, 1, Ke) 0 one_pos one_pos one_pos hKe
      hEq).2⟩

/-- Claim C10: the kinetics function is invariant under positive scaling
of the state vector: for all-positive states, lambda > 0, and any W,
LTS(lambda * z, W) = LTS(z, W), because the concentrations depend only on
the mole fractions. -/
theorem C10_scale_invariance (z : ℝ × ℝ × ℝ × ℝ) (l W : ℝ)
    (hl : 0 < l) (h1 : 0 < z.1) (h2 : 0 < z.2.1) (h3 : 0 < z.2.2.1)
    (h4 : 0 < z.2.2.2) :
    LTS (l * z.1, l * z.2.1, l * z.2.2.1, l * z.2.2.2) W = LTS z W := by
  have hFt : 0 < Ft z := by unfold Ft; linarith
  have hFtne : z.1 + z.2.1 + z.2.2.1 + z.2.2.2 ≠ 0 := ne_of_gt hFt
  have hlne : l ≠ 0 := ne_of_gt hl
  have key : ∀ x : ℝ,
      cTotal * (l * x) / (l * z.1 + l * z.2.1 + l * z.2.2.1 + l * z.2.2.2)
        = cTotal * x / (z.1 + z.2.1 + z.2.2.1 + z.2.2.2) := by
    intro x
    have hrw : l * z.1 + l * z.2.1 + l * z.2.2.1 + l * z.2.2.2
        = l * (z.1 + z.2.1 + z.2.2.1 + z.2.2.2) := by ring
    rw [hrw]
    field_simp
    ring
  have e1 : c_CO (l * z.1, l * z.2.1, l * z.2.2.1, l * z.2.2.2) = c_CO z := by
    simp only [c_CO, Ft]
    exact key z.1
  have e2 : c_H2O (l * z.1, l * z.2.1, l * z.2.2.1, l * z.2.2.2) = c_H2O z := by
    simp only [c_H2O, Ft]
    exact key z.2.1
  have e3 : c_CO2 (l * z.1, l * z.2.1, l * z.2.2.1, l * z.2.2.2) = c_CO2 z := by
    simp only [c_CO2, Ft]
    exact key z.2.2.1
  have e4 : c_H2 (l * z.1, l * z.2.1, l * z.2.2.1, l * z.2.2.2) = c_H2 z := by
    simp only [c_H2, Ft]
    exact key z.2.2.2
  simp only [LTS, rate, beta, e1, e2, e3, e4]

/-- Claim C10 witness: scaling the state (1,1,1,1) by 2 leaves the LTS
output unchanged. -/
theorem C10_scale_invariance_witness :
    (0 : ℝ) < 2 ∧
    LTS (2 * 1, 2 * 1, 2 * 1, 2 * 1) 0 = LTS (1, 1, 1, 1) 0 :=
  ⟨by norm_num,
   C10_scale_invariance (1, 1, 1, 1) 2 0 (by norm_num) one_pos one_pos
     one_pos one_pos⟩

/-- Claim C6: wSpan is an evenly spaced grid of exactly wMax = 3000
points from wMin = 0 to wMax = 3000 with both endpoints included (the
i-th point is 3000*i/2999), and the grid is strictly increasing. -/
theorem C6_wspan_grid :
    wSpan.length = 3000 ∧
    (∀ i : ℕ, i < 3000 → wSpan[i]? = some ((3000 : ℝ) * i / 2999)) ∧
    wSpan[0]? = some 0 ∧
    wSpan[2999]? = some 3000 ∧
    List.Pairwise (· < ·) wSpan := by
  have hpt : ∀ i : ℕ, i < 3000 → wSpan[i]? = some ((3000 : ℝ) * i / 2999) := by
    intro i hi
    rw [wSpan, linspace, List.getElem?_map]
    rw [show wMax = 3000 from rfl]
    rw [List.getElem?_range hi]
    norm_num [wMin]
  have hlen : wSpan.length = 3000 := by
    rw [wSpan, linspace, List.length_map, List.length_range]
    rfl
  refine ⟨hlen, hpt, ?_, ?_, ?_⟩
  · have h0 := hpt 0 (by norm_num)
    norm_num at h0
    exact h0
  · have hl := hpt 2999 (by norm_num)
    norm_num at hl
    exact hl
  · rw [wSpan, linspace]
    refine List.Pairwise.map _ ?_ (List.pairwise_lt_range wMax)
    intro i j hij
    have hij2 : (i : ℝ) < (j : ℝ) := by exact_mod_cast hij
    norm_num [wMin, wMax]
    linarith

/-- Claim C6 witness: the grid value at index 5. -/
theorem C6_wspan_grid_witness : wSpan[5]? = some ((3000 : ℝ) * 5 / 2999) :=
  C6_wspan_grid.2.1 5 (by norm_num)

/-- The first output row of the modelled integrator is the initial
state, for any nonempty grid. -/
theorem odeint_first_row (f : (ℝ × ℝ × ℝ × ℝ) → ℝ → ℝ × ℝ × ℝ × ℝ)
    (y0 : ℝ × ℝ × ℝ × ℝ) (ts : List ℝ) (h : ts ≠ []) :
    (odeint f y0 ts)[0]? = some y0 := by
  cases ts with
  | nil => exact absurd rfl h
  | cons t rest => simp [odeint]

/-- Claim C7: the first row of the solver output (the state at the first
sample point W = wMin = 0) equals the inlet flow vector
(291.4, 5441.7, 1604.2, 5015.6) exactly, since the integrator is called
with the inlet flows as initial state. -/
theorem C7_initial_state :
    solver[0]? = some ((291.4 : ℝ), (5441.7 : ℝ), (1604.2 : ℝ),
      (5015.6 : ℝ)) ∧
    wSpan[0]? = some 0 := by
  have hlen : wSpan.length = 3000 := by
    rw [wSpan, linspace, List.length_map, List.length_range]
    rfl
  have hne : wSpan ≠ [] := by
    intro hcon
    rw [hcon] at hlen
    simp at hlen
  have hfirst := odeint_first_row LTS InletFlow wSpan hne
  constructor
  · rw [solver, hfirst]
    rfl
  · rw [wSpan, linspace, List.getElem?_map]
    rw [show wMax = 3000 from rfl]
    rw [List.getElem?_range (by norm_num : (0 : ℕ) < 3000)]
    norm_num [wMin]

/-- Claim C8: the kinetics are not well-defined on some input states.
At total flow zero the concentration computation divides by zero, and at
a negative CO flow the fractional power of the negative concentration is
undefined; the definedness-tracking semantics LTSdef of the guard-free
body returns none at both states. -/
theorem C8_ill_defined_states :
    LTSdef (0, 0, 0, 0) 0 = none ∧ LTSdef (-1, 1, 1, 1) 0 = none := by
  constructor
  · simp [LTSdef, fdiv]
  · have hcT : (0 : ℝ) < cTotal := by norm_num [cTotal, P, R, T]
    have hne : cTotal ≠ 0 := ne_of_gt hcT
    have hKene : Ke ≠ 0 := ne_of_gt (Real.exp_pos _)
    simp only [LTSdef, fdiv, fpow, bind, Option.bind]
    norm_num [hne, hKene]
    norm_num [a]
    have hneg : -cTotal / 2 < 0 := by linarith
    rw [if_pos hneg]

/-- Claim C9 counterexample: the trace of matplotlib commands issued by
the script contains no show or savefig command, so the program itself
neither displays nor saves the chart. -/
theorem C9_counterexample : plotCommands.any isDisplayCmd = false := rfl

/-- Claim C9 (amended): the script builds a single chart whose four line
series are labeled F_CO, F_H2O, F_CO2, F_H2 and plot the four solver
columns against wSpan, with x-axis label "Catalyst mass, kg", y-axis
label "Molar Flowrates (mol/s)", title
"LTS Molar Flow as Function of Cat. Mass", and an automatically placed
legend; but the command trace contains no display or save command. -/
theorem C9_chart_structure :
    plotCommands.filterMap labelOfPlot = ["F_CO", "F_H2O", "F_CO2", "F_H2"] ∧
    PlotCmd.plot "F_CO" wSpan (solver.map (fun s => s.1)) ∈ plotCommands ∧
    PlotCmd.plot "F_H2O" wSpan (solver.map (fun s => s.2.1)) ∈ plotCommands ∧
    PlotCmd.plot "F_CO2" wSpan (solver.map (fun s => s.2.2.1)) ∈ plotCommands ∧
    PlotCmd.plot "F_H2" wSpan (solver.map (fun s => s.2.2.2)) ∈ plotCommands ∧
    PlotCmd.xlabel "Catalyst mass, kg" ∈ plotCommands ∧
    PlotCmd.ylabel "Molar Flowrates (mol/s)" ∈ plotCommands ∧
    PlotCmd.title "LTS Molar Flow as Function of Cat. Mass" ∈ plotCommands ∧
    PlotCmd.legend "best" ∈ plotCommands ∧
    plotCommands.any isDisplayCmd = false := by
  refine ⟨rfl, ?_, ?_, ?_, ?_, ?_, ?_, ?_, ?_, rfl⟩ <;> simp [plotCommands]

end

end Mk3
